import Mathlib

/-!
Shallow embedding of `flask_discord/models/user.py` (class `User`) and the
pieces of its collaborators that the verified properties need.

Python conventions modelled here:
* JSON payload values are the inductive `Value`; a payload (JSON object /
  Python dict) is an association list `Payload` looked up by first match.
* A raising Python expression is an `Except Err` computation; `Err` carries
  the kind of exception (`missingField` models a `KeyError` on a missing
  mapping key — the spec's `MissingField` error kind; `attributeError`
  models e.g. `None.startswith`; `valueError` a failed `int(...)` coercion;
  `unauthorized` the library's `Unauthorized` error).
* Methods that assign attributes are state-passing functions returning the
  updated `User` next to their result.
-/

namespace FlaskDiscord

/-- JSON-style payload values as they appear in Discord API responses. -/
inductive Value where
  | vNull
  | vBool (b : Bool)
  | vInt (n : Int)
  | vStr (s : String)
  deriving DecidableEq

/-- A JSON object / Python dict payload: string keys to values. -/
def Payload := List (String × Value)

instance : DecidableEq Payload := by
  unfold Payload
  infer_instance

/-- Kinds of Python exceptions that the modelled code can raise. -/
inductive Err where
  | missingField (key : String)
  | valueError (s : String)
  | typeError (msg : String)
  | attributeError (attr : String)
  | unauthorized
  | httpError (code : Nat)
  deriving DecidableEq

instance {ε α : Type} [DecidableEq ε] [DecidableEq α] : DecidableEq (Except ε α)
  | Except.ok a, Except.ok b =>
      if h : a = b then Decidable.isTrue (by rw [h]) else Decidable.isFalse (by simp [h])
  | Except.ok _, Except.error _ => Decidable.isFalse (by simp)
  | Except.error _, Except.ok _ => Decidable.isFalse (by simp)
  | Except.error e, Except.error f =>
      if h : e = f then Decidable.isTrue (by rw [h]) else Decidable.isFalse (by simp [h])

/-- Dictionary lookup `d.get(k)`: `some v` when the key is present. -/
def Payload.get? (p : Payload) (k : String) : Option Value :=
  (List.find? (fun kv => kv.1 = k) p).map (fun kv => kv.2)

/-- Python subscript `d[k]`: raises `KeyError` (the spec's `MissingField`)
when the key is absent. -/
def Payload.getItem (p : Payload) (k : String) : Except Err Value :=
  match p.get? k with
  | some v => Except.ok v
  | none => Except.error (Err.missingField k)

/-- Decimal digit run to a number: `some` only for a nonempty all-digit run. -/
def digitsToNat (l : List Char) : Option Nat :=
  if l ≠ [] ∧ l.all (fun c => c.isDigit) then
    some (l.foldl (fun n c => 10 * n + (c.toNat - 48)) 0)
  else none

/-- Python `int(str)` parsing: surrounding whitespace allowed, an optional
single sign, then a nonempty run of decimal digits; anything else fails. -/
def pyIntOfStr (s : String) : Option Int :=
  let cs := s.data.dropWhile (fun c => c.isWhitespace)
  let cs := (cs.reverse.dropWhile (fun c => c.isWhitespace)).reverse
  match cs with
  | '-' :: rest => (digitsToNat rest).map (fun n => -(n : Int))
  | '+' :: rest => (digitsToNat rest).map (fun n => (n : Int))
  | rest => (digitsToNat rest).map (fun n => (n : Int))

/-- Python `int(x)` as applied in `User.__init__`: integers pass through,
booleans coerce to 0/1, numeric strings parse, anything else raises. -/
def pyInt : Value → Except Err Int
  | Value.vInt n => Except.ok n
  | Value.vBool b => Except.ok (if b then 1 else 0)
  | Value.vStr s =>
      match pyIntOfStr s with
      | some n => Except.ok n
      | none => Except.error (Err.valueError s)
  | Value.vNull => Except.error (Err.typeError "int() argument is None")

/-- Python `s.startswith(pre)`: true iff `pre` is a prefix of `s`
(modelled over the character sequence). -/
def pyStartsWith (s pre : String) : Bool :=
  pre.data.isPrefixOf s.data

/-- Python `str(x)` for the values that can reach string formatting. -/
def pyToStr : Value → String
  | Value.vNull => "None"
  | Value.vBool b => if b then "True" else "False"
  | Value.vInt n => toString n
  | Value.vStr s => s

/-- `flask_discord.models.Guild` record, as cached by `User`
(only the fields the cache logic touches). -/
structure Guild where
  id : Int
  name : String
  deriving DecidableEq

/-- `flask_discord.models.UserConnection` record (opaque at this layer). -/
structure UserConnection where
  id : String
  name : String
  deriving DecidableEq

/-- The in-memory `User` object after `__init__`: scalar attributes plus
the two caches (`_guilds` is a Python dict from guild id to `Guild`,
modelled as an insertion-ordered association list; `connections` a list). -/
structure User where
  id : Int
  username : Value
  discriminator : Value
  avatar_hash : Value
  bot : Value
  mfa_enabled : Value
  locale : Value
  verified : Value
  email : Value
  flags : Value
  premium_type : Value
  _guilds : List (Int × Guild)
  connections : List UserConnection
  deriving DecidableEq

/-- `User.__init__(payload)`. Mirrors the source order: `id` is subscripted
and coerced with `int(...)`, then `username` and `discriminator` are
subscripted (all three raise `KeyError` when absent), the remaining keys
use `.get` with its default (`None`, `False` for `bot`, and the already
assigned discriminator for `avatar`). The caches start empty. -/
def User.init (p : Payload) : Except Err User :=
  match p.get? "id" with
  | none => Except.error (Err.missingField "id")
  | some idv =>
    match pyInt idv with
    | Except.error e => Except.error e
    | Except.ok idn =>
      match p.get? "username" with
      | none => Except.error (Err.missingField "username")
      | some uname =>
        match p.get? "discriminator" with
        | none => Except.error (Err.missingField "discriminator")
        | some disc =>
          Except.ok
            { id := idn
              username := uname
              discriminator := disc
              avatar_hash := (p.get? "avatar").getD disc
              bot := (p.get? "bot").getD (Value.vBool false)
              mfa_enabled := (p.get? "mfa_enabled").getD Value.vNull
              locale := (p.get? "locale").getD Value.vNull
              verified := (p.get? "verified").getD Value.vNull
              email := (p.get? "email").getD Value.vNull
              flags := (p.get? "flags").getD Value.vNull
              premium_type := (p.get? "premium_type").getD Value.vNull
              _guilds := []
              connections := [] }

/-- The `guilds` property: the values view of the internal dict. -/
def User.guilds (u : User) : List Guild :=
  u._guilds.map (fun kv => kv.2)

/-- Single key assignment in a Python dict: overwriting an existing key
keeps its position, a new key is appended. -/
def dictInsert (d : List (Int × Guild)) (k : Int) (v : Guild) : List (Int × Guild) :=
  if k ∈ d.map Prod.fst then d.map (fun p => if p.1 = k then (k, v) else p)
  else d ++ [(k, v)]

/-- The dict comprehension `{guild.id: guild for guild in gs}`. -/
def dictOfGuilds (gs : List Guild) : List (Int × Guild) :=
  gs.foldl (fun d g => dictInsert d g.id g) []

/-- `User.is_avatar_animated`: `self.avatar_hash.startswith("a_")`.
Raises `AttributeError` when `avatar_hash` is not a string (e.g. `None`
has no `startswith`). -/
def User.is_avatar_animated (u : User) : Except Err Bool :=
  match u.avatar_hash with
  | Value.vStr s => Except.ok (pyStartsWith s "a_")
  | _ => Except.error (Err.attributeError "startswith")

/-- Modelled from the spec: `configs.DISCORD_IMAGE_FORMAT`, the static image
format constant (the configs module is not under src/). -/
def DISCORD_IMAGE_FORMAT : String := "png"

/-- Modelled from the spec: `configs.DISCORD_ANIMATED_IMAGE_FORMAT`, the
animated image format constant, distinct from the static one. -/
def DISCORD_ANIMATED_IMAGE_FORMAT : String := "gif"

/-- The base-URL piece of the avatar template in front of the hash. -/
def avatarUrlPre (user_id : String) : String :=
  "https://cdn.discordapp.com/avatars/" ++ user_id ++ "/"

/-- Modelled from the spec: `configs.DISCORD_USER_AVATAR_BASE_URL.format(...)`
(the configs module is not under src/) — a string template over base URL,
user id, avatar hash and image format. -/
def DISCORD_USER_AVATAR_BASE_URL_format
    (user_id avatar_hash fmt : String) : String :=
  avatarUrlPre user_id ++ avatar_hash ++ ("." ++ fmt)

/-- `User.avatar_url`: picks the animated or static format from
`is_avatar_animated` (whose exception propagates) and formats the
configured template. -/
def User.avatar_url (u : User) : Except Err String :=
  match u.is_avatar_animated with
  | Except.error e => Except.error e
  | Except.ok animated =>
      Except.ok (DISCORD_USER_AVATAR_BASE_URL_format (toString u.id)
        (pyToStr u.avatar_hash)
        (if animated then DISCORD_ANIMATED_IMAGE_FORMAT else DISCORD_IMAGE_FORMAT))

/-- The OAuth2 token mapping stored in the flask session under
`"DISCORD_OAUTH2_TOKEN"` (only the field `add_to_guild` reads). -/
structure OAuth2Token where
  access_token : String
  deriving DecidableEq

/-- `session["DISCORD_OAUTH2_TOKEN"]` in `add_to_guild`: the flask session
is an ordinary mapping, so an absent key raises `KeyError`. -/
def sessionToken : Option OAuth2Token → Except Err OAuth2Token
  | some t => Except.ok t
  | none => Except.error (Err.missingField "DISCORD_OAUTH2_TOKEN")

/-- `User.add_to_guild(guild_id)`. The source first subscripts the session
for the user token (building the request body), then issues the privileged
PUT via `self._request(..., oauth=False, ...)`; `_request` lives in
`DiscordModelsBase` which is not under src/, so its outcome is passed in as
`api` — per the spec it returns a decoded mapping, or none on a no-content
response (account already a member), and raises on authorization failure.
The trailing Python `... or dict()` turns a falsy result (`None` or an
empty mapping) into a fresh empty dict. The method assigns no attributes,
so the `User` is returned unchanged. -/
def User.add_to_guild (u : User) (sess : Option OAuth2Token)
    (api : Except Err (Option Payload)) : Except Err Payload × User :=
  match sessionToken sess with
  | Except.error e => (Except.error e, u)
  | Except.ok _tok =>
    match api with
    | Except.error e => (Except.error e, u)
    | Except.ok none => (Except.ok [], u)
    | Except.ok (some d) => (Except.ok (if d.isEmpty then [] else d), u)

/-- `User.fetch_guilds()`. `Guild.fetch_from_api()` (not under src/) is
passed in as its outcome `api`; when it raises, the assignment to
`self._guilds` never happens and the exception propagates, otherwise the
cache is replaced wholesale by the comprehension's dict and the refreshed
`guilds` view is returned. -/
def User.fetch_guilds (u : User) (api : Except Err (List Guild)) :
    Except Err (List Guild) × User :=
  match api with
  | Except.error e => (Except.error e, u)
  | Except.ok gs =>
      let u' := { u with _guilds := dictOfGuilds gs }
      (Except.ok u'.guilds, u')

/-- `User.fetch_connections()`. `UserConnection.fetch_from_api()` (not under
src/) is passed in as its outcome `api`; on success the connections list is
replaced and returned. -/
def User.fetch_connections (u : User) (api : Except Err (List UserConnection)) :
    Except Err (List UserConnection) × User :=
  match api with
  | Except.error e => (Except.error e, u)
  | Except.ok cs => (Except.ok cs, { u with connections := cs })

/-- A concrete user fixture with the given avatar hash value. -/
def mkTestUser (h : Value) : User :=
  { id := 1
    username := Value.vStr "alice"
    discriminator := Value.vStr "0001"
    avatar_hash := h
    bot := Value.vBool false
    mfa_enabled := Value.vNull
    locale := Value.vNull
    verified := Value.vNull
    email := Value.vNull
    flags := Value.vNull
    premium_type := Value.vNull
    _guilds := []
    connections := [] }

/-- A concrete minimal payload: the three subscripted keys only. -/
def payEve : Payload :=
  [("id", Value.vInt 7), ("username", Value.vStr "eve"),
   ("discriminator", Value.vStr "0007")]

/-- `payEve` with an explicit null `"avatar"` key. -/
def payEveNullAvatar : Payload :=
  [("id", Value.vInt 7), ("username", Value.vStr "eve"),
   ("discriminator", Value.vStr "0007"), ("avatar", Value.vNull)]

/-- The user `User.__init__` builds from `payEve`. -/
def userEve : User :=
  { id := 7
    username := Value.vStr "eve"
    discriminator := Value.vStr "0007"
    avatar_hash := Value.vStr "0007"
    bot := Value.vBool false
    mfa_enabled := Value.vNull
    locale := Value.vNull
    verified := Value.vNull
    email := Value.vNull
    flags := Value.vNull
    premium_type := Value.vNull
    _guilds := []
    connections := [] }

/-- The user `User.__init__` builds from `payEveNullAvatar`. -/
def userEveNullAvatar : User := { userEve with avatar_hash := Value.vNull }

/-! ## Theorems -/

/-- Inversion of a successful `User.__init__`: the payload carried the
subscripted keys, and the attributes relevant below are determined by the
payload; both caches start empty. -/
theorem User.init_ok_inv (p : Payload) (u : User) (h : User.init p = Except.ok u) :
    ∃ disc, p.get? "discriminator" = some disc ∧
      u.discriminator = disc ∧
      u.avatar_hash = (p.get? "avatar").getD disc ∧
      u._guilds = [] ∧ u.connections = [] := by
  unfold User.init at h
  split at h
  · exact absurd h (by simp)
  split at h
  · exact absurd h (by simp)
  split at h
  · exact absurd h (by simp)
  split at h
  · exact absurd h (by simp)
  next disc heq =>
    refine ⟨disc, heq, ?_⟩
    injection h with h
    subst h
    exact ⟨rfl, rfl, rfl, rfl⟩

/-- Claim C1, counterexample: a payload whose `"id"` value is the integer 1
but which carries no `"username"` key makes construction fail (with the
missing-key error on `"username"`), refuting "for every payload whose `id`
value is an integer or a numeric string, construction succeeds". -/
theorem user_init_numeric_id_not_sufficient :
    User.init [("id", Value.vInt 1)] = Except.error (Err.missingField "username") := by
  decide

/-- Claim C1, amended: construction without an `"id"` key fails with the
missing-field error on `"id"` (never a silent default), and construction
from a payload whose `"id"` is an integer or a numeric string succeeds with
`id` equal to the coerced integer, provided the also-subscripted
`"username"` and `"discriminator"` keys are present. -/
theorem user_init_id_spec (p : Payload) :
    (p.get? "id" = none → User.init p = Except.error (Err.missingField "id")) ∧
    (∀ n : Int, p.get? "id" = some (Value.vInt n) →
      p.get? "username" ≠ none → p.get? "discriminator" ≠ none →
      ∃ u, User.init p = Except.ok u ∧ u.id = n) ∧
    (∀ (s : String) (n : Int), p.get? "id" = some (Value.vStr s) →
      pyIntOfStr s = some n →
      p.get? "username" ≠ none → p.get? "discriminator" ≠ none →
      ∃ u, User.init p = Except.ok u ∧ u.id = n) := by
  refine ⟨fun h => by simp [User.init, h], ?_, ?_⟩
  · intro n hid hu hd
    obtain ⟨uname, hu⟩ := Option.ne_none_iff_exists'.mp hu
    obtain ⟨disc, hd⟩ := Option.ne_none_iff_exists'.mp hd
    refine ⟨{ id := n, username := uname, discriminator := disc,
              avatar_hash := (p.get? "avatar").getD disc,
              bot := (p.get? "bot").getD (Value.vBool false),
              mfa_enabled := (p.get? "mfa_enabled").getD Value.vNull,
              locale := (p.get? "locale").getD Value.vNull,
              verified := (p.get? "verified").getD Value.vNull,
              email := (p.get? "email").getD Value.vNull,
              flags := (p.get? "flags").getD Value.vNull,
              premium_type := (p.get? "premium_type").getD Value.vNull,
              _guilds := [], connections := [] }, ?_, rfl⟩
    simp [User.init, hid, hu, hd, pyInt]
  · intro s n hid hs hu hd
    obtain ⟨uname, hu⟩ := Option.ne_none_iff_exists'.mp hu
    obtain ⟨disc, hd⟩ := Option.ne_none_iff_exists'.mp hd
    refine ⟨{ id := n, username := uname, discriminator := disc,
              avatar_hash := (p.get? "avatar").getD disc,
              bot := (p.get? "bot").getD (Value.vBool false),
              mfa_enabled := (p.get? "mfa_enabled").getD Value.vNull,
              locale := (p.get? "locale").getD Value.vNull,
              verified := (p.get? "verified").getD Value.vNull,
              email := (p.get? "email").getD Value.vNull,
              flags := (p.get? "flags").getD Value.vNull,
              premium_type := (p.get? "premium_type").getD Value.vNull,
              _guilds := [], connections := [] }, ?_, rfl⟩
    simp [User.init, hid, hu, hd, pyInt, hs]

/-- Claim C1, witness: the amended theorem applied to a concrete payload
with a numeric-string id. -/
theorem user_init_id_spec_witness :
    ∃ u, User.init
        [("id", Value.vStr "42"), ("username", Value.vStr "bob"),
         ("discriminator", Value.vStr "0042")] = Except.ok u ∧ u.id = 42 :=
  (user_init_id_spec _).2.2 "42" 42 (by decide) (by decide) (by decide) (by decide)

/-- Claim C3: when the underlying API call of `fetch_guilds` raises, the
error propagates and the `User` — in particular its guild cache — is left
exactly as it was (replacement happens only on success). -/
theorem fetch_guilds_error_leaves_cache (u : User) (e : Err) :
    u.fetch_guilds (Except.error e) = (Except.error e, u) := rfl

/-- Claim C5: when `avatar_hash` is the string `s`, `is_avatar_animated`
returns a boolean that is true iff `s` begins with the two characters
`a_`, and the predicate reads no state besides `avatar_hash` (any user
with the same `avatar_hash` gets the same answer). -/
theorem is_avatar_animated_spec (u : User) (s : String)
    (h : u.avatar_hash = Value.vStr s) :
    u.is_avatar_animated = Except.ok (pyStartsWith s "a_") ∧
    (pyStartsWith s "a_" = true ↔ ['a', '_'] <+: s.data) ∧
    (∀ v : User, v.avatar_hash = u.avatar_hash →
      v.is_avatar_animated = u.is_avatar_animated) := by
  refine ⟨by simp [User.is_avatar_animated, h], ?_, ?_⟩
  · exact List.isPrefixOf_iff_prefix
  · intro v hv
    simp [User.is_avatar_animated, hv]

/-- Claim C5, witness: concrete users with hashes `abc123` (not animated)
and `a_abc123` (animated). -/
theorem is_avatar_animated_spec_witness :
    (mkTestUser (Value.vStr "abc123")).is_avatar_animated = Except.ok false ∧
    (mkTestUser (Value.vStr "a_abc123")).is_avatar_animated = Except.ok true := by
  constructor
  · have h := (is_avatar_animated_spec (mkTestUser (Value.vStr "abc123")) "abc123" rfl).1
    simpa using h
  · have h := (is_avatar_animated_spec (mkTestUser (Value.vStr "a_abc123")) "a_abc123" rfl).1
    simpa using h

/-- Claim C10: `fetch_guilds` mutates only the internal guild cache — the
connections list and every scalar attribute are unchanged — and
`fetch_connections` mutates only the connections list, leaving the guild
cache and all scalar attributes unchanged (for any API outcome). -/
theorem fetch_operations_frame (u : User)
    (gapi : Except Err (List Guild)) (capi : Except Err (List UserConnection)) :
    ((u.fetch_guilds gapi).2.id = u.id ∧
     (u.fetch_guilds gapi).2.username = u.username ∧
     (u.fetch_guilds gapi).2.discriminator = u.discriminator ∧
     (u.fetch_guilds gapi).2.avatar_hash = u.avatar_hash ∧
     (u.fetch_guilds gapi).2.bot = u.bot ∧
     (u.fetch_guilds gapi).2.mfa_enabled = u.mfa_enabled ∧
     (u.fetch_guilds gapi).2.locale = u.locale ∧
     (u.fetch_guilds gapi).2.verified = u.verified ∧
     (u.fetch_guilds gapi).2.email = u.email ∧
     (u.fetch_guilds gapi).2.flags = u.flags ∧
     (u.fetch_guilds gapi).2.premium_type = u.premium_type ∧
     (u.fetch_guilds gapi).2.connections = u.connections) ∧
    ((u.fetch_connections capi).2.id = u.id ∧
     (u.fetch_connections capi).2.username = u.username ∧
     (u.fetch_connections capi).2.discriminator = u.discriminator ∧
     (u.fetch_connections capi).2.avatar_hash = u.avatar_hash ∧
     (u.fetch_connections capi).2.bot = u.bot ∧
     (u.fetch_connections capi).2.mfa_enabled = u.mfa_enabled ∧
     (u.fetch_connections capi).2.locale = u.locale ∧
     (u.fetch_connections capi).2.verified = u.verified ∧
     (u.fetch_connections capi).2.email = u.email ∧
     (u.fetch_connections capi).2.flags = u.flags ∧
     (u.fetch_connections capi).2.premium_type = u.premium_type ∧
     (u.fetch_connections capi).2._guilds = u._guilds) := by
  constructor
  · cases gapi <;>
      exact ⟨rfl, rfl, rfl, rfl, rfl, rfl, rfl, rfl, rfl, rfl, rfl, rfl⟩
  · cases capi <;>
      exact ⟨rfl, rfl, rfl, rfl, rfl, rfl, rfl, rfl, rfl, rfl, rfl, rfl⟩

/-- Folding dict insertion over guilds with fresh ids appends in order. -/
theorem foldl_dictInsert_eq_append (gs : List Guild) :
    ∀ acc : List (Int × Guild),
      ((acc.map Prod.fst) ++ gs.map Guild.id).Nodup →
      gs.foldl (fun d g => dictInsert d g.id g) acc
        = acc ++ gs.map (fun g => (g.id, g)) := by
  induction gs with
  | nil => intro acc _; simp
  | cons g gs ih =>
    intro acc h
    have hmem : g.id ∉ acc.map Prod.fst := by
      rcases List.nodup_append.mp h with ⟨-, -, hdisj⟩
      intro hg
      exact hdisj hg (by simp)
    have hins : dictInsert acc g.id g = acc ++ [(g.id, g)] := by
      simp [dictInsert, hmem]
    have h' : (((acc ++ [(g.id, g)]).map Prod.fst) ++ gs.map Guild.id).Nodup := by
      simpa using h
    rw [List.foldl_cons, hins, ih _ h']
    simp

/-- The dict comprehension over guilds with pairwise distinct ids is just
the ordered pairing of each guild with its id. -/
theorem dictOfGuilds_eq (gs : List Guild) (h : (gs.map Guild.id).Nodup) :
    dictOfGuilds gs = gs.map (fun g => (g.id, g)) := by
  simpa [dictOfGuilds] using foldl_dictInsert_eq_append gs [] (by simpa using h)

/-- Claim C2, counterexample: an API result of N = 2 guild records sharing
one id leaves `len(guilds) == 1`, refuting "afterwards len(guilds) == N"
as universally stated (the dict comprehension collapses duplicate ids). -/
theorem fetch_guilds_duplicate_id_counterexample :
    ((mkTestUser Value.vNull).fetch_guilds
        (Except.ok [⟨1, "alpha"⟩, ⟨1, "alpha2"⟩])).2.guilds.length = 1 ∧
    ([(⟨1, "alpha"⟩ : Guild), ⟨1, "alpha2"⟩]).length = 2 ∧
    (1 : Nat) ≠ 2 := by
  decide

/-- Claim C2, amended: for a successful `fetch_guilds` whose API call
returns N guild records with pairwise distinct ids, the old cache is
dropped wholesale (the new cache is a function of the fetched records
alone), `len(guilds) == N`, each returned guild's id occurs as a cache key
exactly once, and the call returns the refreshed guilds view. -/
theorem fetch_guilds_replaces_cache (u : User) (gs : List Guild)
    (h : (gs.map Guild.id).Nodup) :
    (u.fetch_guilds (Except.ok gs)).2._guilds = gs.map (fun g => (g.id, g)) ∧
    (u.fetch_guilds (Except.ok gs)).2.guilds = gs ∧
    (u.fetch_guilds (Except.ok gs)).1
      = Except.ok ((u.fetch_guilds (Except.ok gs)).2.guilds) ∧
    (u.fetch_guilds (Except.ok gs)).2.guilds.length = gs.length ∧
    (∀ g ∈ gs,
      ((u.fetch_guilds (Except.ok gs)).2._guilds.map Prod.fst).count g.id = 1) := by
  have hcache : (u.fetch_guilds (Except.ok gs)).2._guilds
      = gs.map (fun g => (g.id, g)) := by
    simp [User.fetch_guilds, dictOfGuilds_eq gs h]
  have hview : (u.fetch_guilds (Except.ok gs)).2.guilds = gs := by
    show ((u.fetch_guilds (Except.ok gs)).2._guilds).map (fun kv => kv.2) = gs
    rw [hcache, List.map_map]
    exact List.map_id gs
  refine ⟨hcache, hview, rfl, by rw [hview], ?_⟩
  intro g hg
  have hkeys : (u.fetch_guilds (Except.ok gs)).2._guilds.map Prod.fst
      = gs.map Guild.id := by
    simp [hcache]
  rw [hkeys]
  exact List.count_eq_one_of_mem h (List.mem_map_of_mem Guild.id hg)

/-- Claim C2, witness: two distinct-id guild records refresh the cache of a
user to exactly those two records. -/
theorem fetch_guilds_replaces_cache_witness :
    ((mkTestUser Value.vNull).fetch_guilds
        (Except.ok [⟨1, "alpha"⟩, ⟨2, "beta"⟩])).2.guilds
      = [⟨1, "alpha"⟩, ⟨2, "beta"⟩] :=
  (fetch_guilds_replaces_cache (mkTestUser Value.vNull)
    [⟨1, "alpha"⟩, ⟨2, "beta"⟩] (by decide)).2.1

/-- Claim C4, counterexample: with no OAuth2 token stored in the session,
`add_to_guild` fails while subscripting the session — a missing-key error,
which is not the library's `Unauthorized` error — refuting "if the current
session lacks a valid user OAuth2 token, add_to_guild fails with an
Unauthorized error" in the absent-token case. -/
theorem add_to_guild_missing_token_counterexample :
    ((mkTestUser Value.vNull).add_to_guild none
        (Except.ok (some [("nick", Value.vStr "n")]))).1
      = Except.error (Err.missingField "DISCORD_OAUTH2_TOKEN") ∧
    Err.missingField "DISCORD_OAUTH2_TOKEN" ≠ Err.unauthorized := by
  decide

/-- Claim C4, amended: when the session holds no OAuth2 token,
`add_to_guild` fails with a missing-key error on the session subscript
(before any request); when a token is present, an error raised by the
privileged request — per the request capability's contract, Unauthorized
on authorization failure — propagates; a no-content response (account
already a member) yields an empty dict; a non-empty membership mapping is
returned as is; the successful return value is never a null. -/
theorem add_to_guild_spec (u : User) (t : OAuth2Token) (e : Err)
    (api : Except Err (Option Payload)) (d : Payload) (hd : d ≠ []) :
    ((u.add_to_guild none api).1
      = Except.error (Err.missingField "DISCORD_OAUTH2_TOKEN")) ∧
    ((u.add_to_guild (some t) (Except.error e)).1 = Except.error e) ∧
    ((u.add_to_guild (some t) (Except.ok none)).1 = Except.ok []) ∧
    ((u.add_to_guild (some t) (Except.ok (some d))).1 = Except.ok d) := by
  refine ⟨rfl, rfl, rfl, ?_⟩
  cases d with
  | nil => exact absurd rfl hd
  | cons kv d' => rfl

/-- Claim C4, witness: a concrete member-creating call returns the
membership mapping unchanged. -/
theorem add_to_guild_spec_witness :
    ((mkTestUser Value.vNull).add_to_guild (some ⟨"tok"⟩)
        (Except.ok (some [("nick", Value.vStr "n")]))).1
      = Except.ok [("nick", Value.vStr "n")] :=
  (add_to_guild_spec (mkTestUser Value.vNull) ⟨"tok"⟩ Err.unauthorized
    (Except.ok (some [("nick", Value.vStr "n")]))
    [("nick", Value.vStr "n")] (by decide)).2.2.2

/-- Claim C6, counterexample: two users equal in every input except
`avatar_hash` (`abc123` versus `a_abc123`). The hash change flips the
animated flag, so the image-format segment of the URL — text outside the
substituted hash — changes from `.png` to `.gif`: changing `avatar_hash`
alone does not change only the hash segment. -/
theorem avatar_url_format_segment_counterexample :
    mkTestUser (Value.vStr "a_abc123")
      = { mkTestUser (Value.vStr "abc123") with
          avatar_hash := Value.vStr "a_abc123" } ∧
    (mkTestUser (Value.vStr "abc123")).avatar_url
      = Except.ok "https://cdn.discordapp.com/avatars/1/abc123.png" ∧
    (mkTestUser (Value.vStr "a_abc123")).avatar_url
      = Except.ok "https://cdn.discordapp.com/avatars/1/a_abc123.gif" ∧
    "https://cdn.discordapp.com/avatars/1/abc123.png".takeRight 4
      ≠ "https://cdn.discordapp.com/avatars/1/a_abc123.gif".takeRight 4 := by
  decide

/-- Claim C6, amended: `avatar_url` equals the configured base-URL template
formatted with the user's id, hash, and the animated image format when the
hash is animated (otherwise the static format); it is a pure function of
those inputs, so equal (id, avatar_hash) pairs give identical strings; and
changing `avatar_hash` alone changes only the hash segment provided the
animated status is unchanged (otherwise the format segment changes too). -/
theorem avatar_url_spec (u v : User) (s t : String)
    (hu : u.avatar_hash = Value.vStr s) (hv : v.avatar_hash = Value.vStr t)
    (hid : u.id = v.id) :
    u.avatar_url = Except.ok (DISCORD_USER_AVATAR_BASE_URL_format
        (toString u.id) s
        (if pyStartsWith s "a_" then DISCORD_ANIMATED_IMAGE_FORMAT
         else DISCORD_IMAGE_FORMAT)) ∧
    (s = t → u.avatar_url = v.avatar_url) ∧
    (pyStartsWith s "a_" = pyStartsWith t "a_" →
      ∃ pre suf, u.avatar_url = Except.ok (pre ++ s ++ suf) ∧
        v.avatar_url = Except.ok (pre ++ t ++ suf)) := by
  have hus : u.avatar_url = Except.ok (DISCORD_USER_AVATAR_BASE_URL_format
      (toString u.id) s
      (if pyStartsWith s "a_" then DISCORD_ANIMATED_IMAGE_FORMAT
       else DISCORD_IMAGE_FORMAT)) := by
    simp [User.avatar_url, User.is_avatar_animated, hu, pyToStr]
  have hvs : v.avatar_url = Except.ok (DISCORD_USER_AVATAR_BASE_URL_format
      (toString v.id) t
      (if pyStartsWith t "a_" then DISCORD_ANIMATED_IMAGE_FORMAT
       else DISCORD_IMAGE_FORMAT)) := by
    simp [User.avatar_url, User.is_avatar_animated, hv, pyToStr]
  refine ⟨hus, ?_, ?_⟩
  · intro hst
    rw [hus, hvs, hid, hst]
  · intro hanim
    refine ⟨avatarUrlPre (toString u.id),
      "." ++ (if pyStartsWith s "a_" then DISCORD_ANIMATED_IMAGE_FORMAT
              else DISCORD_IMAGE_FORMAT), hus, ?_⟩
    rw [hvs, hid, hanim]
    rfl

/-- Claim C6, witness: two equal-id users whose hashes `abc123` and `zzz`
are both not animated share the surrounding URL text around the hash. -/
theorem avatar_url_spec_witness :
    ∃ pre suf,
      (mkTestUser (Value.vStr "abc123")).avatar_url
        = Except.ok (pre ++ "abc123" ++ suf) ∧
      (mkTestUser (Value.vStr "zzz")).avatar_url
        = Except.ok (pre ++ "zzz" ++ suf) :=
  (avatar_url_spec (mkTestUser (Value.vStr "abc123"))
    (mkTestUser (Value.vStr "zzz")) "abc123" "zzz" rfl rfl rfl).2.2 (by decide)

/-- Claim C7: when the `"avatar"` key is absent from the payload, the
constructed user's `avatar_hash` equals its discriminator; when the key is
present, `avatar_hash` equals the key's value. -/
theorem user_init_avatar_default (p : Payload) (u : User)
    (h : User.init p = Except.ok u) :
    (p.get? "avatar" = none → u.avatar_hash = u.discriminator) ∧
    (∀ v, p.get? "avatar" = some v → u.avatar_hash = v) := by
  obtain ⟨disc, -, hdisc, hav, -, -⟩ := User.init_ok_inv p u h
  constructor
  · intro hnone
    rw [hav, hnone, hdisc]
    rfl
  · intro v hsome
    rw [hav, hsome]
    rfl

/-- Claim C7, witness: a concrete payload without `"avatar"` yields
`avatar_hash` equal to the discriminator string. -/
theorem user_init_avatar_default_witness :
    User.init payEve = Except.ok userEve ∧
    userEve.avatar_hash = userEve.discriminator :=
  ⟨by decide, (user_init_avatar_default payEve userEve (by decide)).1 (by decide)⟩

/-- Claim C8: a freshly constructed user has an empty guild cache and an
empty connections list (so the `guilds` view is `[]`), and `add_to_guild`
— the only modelled operation besides the two fetches — returns the user
unchanged, so only `fetch_guilds` and `fetch_connections` can move these
caches from empty to populated. -/
theorem fresh_user_caches_empty (p : Payload) (u : User)
    (h : User.init p = Except.ok u) :
    u.guilds = [] ∧ u.connections = [] ∧ u._guilds = [] ∧
    (∀ sess api, (u.add_to_guild sess api).2 = u) := by
  obtain ⟨-, -, -, -, hg, hc⟩ := User.init_ok_inv p u h
  refine ⟨?_, hc, hg, ?_⟩
  · rw [User.guilds, hg]
    rfl
  · intro sess api
    cases sess with
    | none => rfl
    | some t =>
      cases api with
      | error e => rfl
      | ok o => cases o <;> rfl

/-- Claim C8, witness: the concrete fresh user built from a minimal payload
has empty caches. -/
theorem fresh_user_caches_empty_witness :
    userEve.guilds = [] ∧ userEve.connections = [] :=
  ⟨(fresh_user_caches_empty payEve userEve (by decide)).1,
   (fresh_user_caches_empty payEve userEve (by decide)).2.1⟩

/-- Claim C9: when the payload's `"avatar"` key is present but null, the
constructed user's `avatar_hash` is null (the discriminator default applies
only to an absent key), and both `is_avatar_animated` and `avatar_url`
then fail with the attribute error from calling `startswith` on a
non-string, instead of returning a value. -/
theorem avatar_null_raises (p : Payload) (u : User)
    (h : User.init p = Except.ok u) (hav : p.get? "avatar" = some Value.vNull) :
    u.avatar_hash = Value.vNull ∧
    u.is_avatar_animated = Except.error (Err.attributeError "startswith") ∧
    u.avatar_url = Except.error (Err.attributeError "startswith") := by
  obtain ⟨disc, -, -, havh, -, -⟩ := User.init_ok_inv p u h
  have hnull : u.avatar_hash = Value.vNull := by
    rw [havh, hav]
    rfl
  refine ⟨hnull, ?_, ?_⟩
  · simp [User.is_avatar_animated, hnull]
  · simp [User.avatar_url, User.is_avatar_animated, hnull]

/-- Claim C9, witness: a concrete payload mapping `"avatar"` to null. -/
theorem avatar_null_raises_witness :
    userEveNullAvatar.avatar_hash = Value.vNull ∧
    userEveNullAvatar.is_avatar_animated
      = Except.error (Err.attributeError "startswith") :=
  ⟨(avatar_null_raises payEveNullAvatar userEveNullAvatar (by decide) (by decide)).1,
   (avatar_null_raises payEveNullAvatar userEveNullAvatar (by decide) (by decide)).2.1⟩

end FlaskDiscord
